import Mathlib

/-!
Formal model of the TeachPy chat-session persistence layer (src/app.py).

The session store is the Redis hash at key teachpy:chat_sessions together with the
scalar current-session pointer at key teachpy:current_session.  The redis client is
created with redis.from_url(redis_url, decode_responses=True) (src/app.py line 20),
so every value the client reads back from Redis is a Python 3 str; a subsequent call
of .decode("utf-8") on such a value raises AttributeError, which this model renders
as an Option / error flag.  JSON serialization of a record (json.dumps / json.loads)
is modelled as the identity on the record.  Sources of nondeterminism (uuid.uuid4,
datetime.now) are passed to the modelled functions as explicit inputs.
-/

/-- Message record: a role ("user" or "assistant") and a text content, exactly the
shape stored inside a session record. -/
structure Message where
  role : String
  content : String
  deriving DecidableEq

/-- Session record as serialized into the Redis hash: id, title, message list,
created_at timestamp string, and the display_time label computed at creation. -/
structure Session where
  id : String
  title : String
  messages : List Message
  created_at : String
  display_time : String
  deriving DecidableEq

/-- Model of a Python string value: either a Python 3 str or a bytes object
(carrying UTF-8 text). With decode_responses=True every value read from Redis
is a str. -/
inductive PyString where
  | str : String → PyString
  | bytes : String → PyString
  deriving DecidableEq

/-- Python method call .decode("utf-8"): defined on bytes objects; calling it on a
Python 3 str raises AttributeError, modelled as none. -/
def PyString.decodeUtf8 : PyString → Option String
  | PyString.bytes s => some s
  | PyString.str _ => none

/-- State of the external store: the session hash (an association list from session
id to record; keys are unique) and the current-session pointer (none when the key
is absent). -/
structure Store where
  sessions : List (String × Session)
  current : Option String
  deriving DecidableEq

/-- Redis hget on the session hash: the record stored under a field, if present. -/
def hget : List (String × Session) → String → Option Session
  | [], _ => none
  | (k, v) :: rest, k0 => if k = k0 then some v else hget rest k0

/-- Redis hset on the session hash: overwrite the record under a field, or add the
field at the end when it is new. -/
def hset : List (String × Session) → String → Session → List (String × Session)
  | [], k0, v0 => [(k0, v0)]
  | (k, v) :: rest, k0, v0 =>
    if k = k0 then (k0, v0) :: rest else (k, v) :: hset rest k0 v0

/-- Redis hdel on the session hash: remove a field (keys are unique). -/
def hdel : List (String × Session) → String → List (String × Session)
  | [], _ => []
  | (k, v) :: rest, k0 => if k = k0 then rest else (k, v) :: hdel rest k0

/-- Python slice content[:30]: the first 30 characters, or the whole string when it
is shorter than 30 characters. -/
def pySlice30 (s : String) : String := ⟨s.data.take 30⟩

/-- Python datetime with minute precision, as consumed by format_chat_timestamp.
The calendar date is represented by its proleptic Gregorian ordinal (Python
date.toordinal; ordinal 1 is Monday, 0001-01-01); the .date() method projects the
date field, dropping hour and minute.  The strptime parsing step of the source is
modelled by taking the already-parsed value. -/
structure PyDatetime where
  date : Nat
  hour : Nat
  minute : Nat
  deriving DecidableEq

/-- Full weekday names produced by Python strftime, indexed by date.weekday()
(0 = Monday). -/
def dayNames : List String :=
  ["Monday", "Tuesday", "Wednesday", "Thursday", "Friday", "Saturday", "Sunday"]

/-- Python strftime("%A") of a datetime: the full weekday name of its date.  An
ordinal d has weekday (d + 6) % 7, because ordinal 1 is a Monday. -/
def strftimeA (d : Nat) : String := dayNames.getD ((d + 6) % 7) ""

/-- format_chat_timestamp (src/app.py lines 82-99): the relative day label of a
stored timestamp.  datetime.now() is passed explicitly as now; the expression
today - timedelta(days=1) is ordinal subtraction by one. -/
def format_chat_timestamp (timestamp : PyDatetime) (now : PyDatetime) : String :=
  let today := now.date
  let yesterday := today - 1
  let timestamp_date := timestamp.date
  if timestamp_date = today then "Today"
  else if timestamp_date = yesterday then "Yesterday"
  else strftimeA timestamp_date

/-- add_message_to_session (src/app.py lines 143-152): load the record; silently do
nothing when the session id is absent from the hash; otherwise append the message,
set the title to the first 30 characters of the content plus "..." exactly when the
appended message has role user and the message list has just reached length 2, and
write the whole record back. -/
def add_message_to_session (session_id : String) (message : Message) (st : Store) : Store :=
  match hget st.sessions session_id with
  | none => st
  | some session =>
    let msgs := session.messages ++ [message]
    let title :=
      if message.role = "user" ∧ msgs.length = 2
      then pySlice30 message.content ++ "..." else session.title
    let session2 := { session with messages := msgs, title := title }
    { st with sessions := hset st.sessions session_id session2 }

/-- Verbatim greeting text appended as the sole initial assistant message of every
new session (src/app.py line 123). -/
def initialContent : String :=
  "Hello! I am TeachPy. To get started, could you please tell me which version of Python you\x27d like to learn (Python 2 or Python 3) and what you would consider your current skill level: *Beginner*, *Intermediate*, or *Advanced*?"

/-- create_new_session (src/app.py lines 101-127): build the record with an empty
message list and title "New Session (display_time)", store it, point the current
pointer at it, append the greeting via add_message_to_session, and return the new
id.  The outputs of uuid.uuid4() and datetime.now().strftime (session_id and
timestamp) and the format_chat_timestamp result (display_time) are explicit
inputs. -/
def create_new_session (session_id timestamp display_time : String) (st : Store) :
    String × Store :=
  let session_data : Session :=
    { id := session_id, title := "New Session (" ++ display_time ++ ")",
      messages := [], created_at := timestamp, display_time := display_time }
  let st1 : Store :=
    { sessions := hset st.sessions session_id session_data, current := some session_id }
  let initial_message : Message := { role := "assistant", content := initialContent }
  let st2 := add_message_to_session session_id initial_message st1
  (session_id, st2)

/-- get_current_session (src/app.py lines 129-134): read the pointer; when it is
falsy (absent key, or the empty string) create and return a new session; otherwise
return session_id.decode("utf-8") — a call that raises AttributeError (none here),
because with decode_responses=True the value is already a str.  The inputs of the
possible create_new_session call are passed through. -/
def get_current_session (freshId timestamp display_time : String) (st : Store) :
    Option (String × Store) :=
  match st.current with
  | none => some (create_new_session freshId timestamp display_time st)
  | some session_id =>
    if session_id = "" then some (create_new_session freshId timestamp display_time st)
    else (PyString.decodeUtf8 (PyString.str session_id)).map (fun s => (s, st))

/-- get_session_messages (src/app.py lines 136-141): the messages of the record, or
the empty list when the session id is absent. -/
def get_session_messages (session_id : String) (st : Store) : List Message :=
  match hget st.sessions session_id with
  | some session => session.messages
  | none => []

/-- Summary entry produced by get_all_sessions for one stored record. -/
structure Summary where
  id : String
  title : String
  created_at : String
  message_count : Nat
  deriving DecidableEq

/-- Loop of get_all_sessions over redis_client.hgetall(...).items(): for each field
the code calls session_id.decode("utf-8") on a str key (decode_responses=True), so
the first iteration over a non-empty hash raises AttributeError (none). -/
def summarize : List (String × Session) → Option (List Summary)
  | [] => some []
  | (session_id, session) :: rest =>
    match PyString.decodeUtf8 (PyString.str session_id) with
    | none => none
    | some i =>
      (summarize rest).map (fun l =>
        { id := i, title := session.title, created_at := session.created_at,
          message_count := session.messages.length } :: l)

/-- Insertion step of the stable descending sort: an entry moves past exactly the
entries with a strictly larger created_at, and stays before equal ones. -/
def insertByCreatedDesc (x : Summary) : List Summary → List Summary
  | [] => [x]
  | y :: rest =>
    if x.created_at < y.created_at then y :: insertByCreatedDesc x rest
    else x :: y :: rest

/-- Python sorted(sessions, key=lambda x: x["created_at"], reverse=True): a stable
sort placing the lexicographically largest created_at first. -/
def sortByCreatedDesc : List Summary → List Summary
  | [] => []
  | x :: rest => insertByCreatedDesc x (sortByCreatedDesc rest)

/-- get_all_sessions (src/app.py lines 154-166): summarize every record of the
hash, then sort by created_at descending. -/
def get_all_sessions (st : Store) : Option (List Summary) :=
  (summarize st.sessions).map sortByCreatedDesc

/-- delete_session (src/app.py lines 168-173): hdel the record, then read the
pointer; when the pointer holds a non-empty str, current_session.decode("utf-8")
raises AttributeError before the comparison with the deleted id.  The result is the
store state at the moment the call returns or raises, paired with true exactly when
it raised. -/
def delete_session (session_id : String) (st : Store) : Store × Bool :=
  let st1 : Store := { st with sessions := hdel st.sessions session_id }
  match st1.current with
  | none => (st1, false)
  | some current_session =>
    if current_session = "" then (st1, false)
    else
      match PyString.decodeUtf8 (PyString.str current_session) with
      | none => (st1, true)
      | some c =>
        if c = session_id then ({ st1 with current := none }, false) else (st1, false)

/-- Rollback on a model-endpoint failure (except branch of main, src/app.py lines
277-285): load the record; when the message list is non-empty and the last message
has role user, pop that one message and write the record back; otherwise touch
nothing. -/
def handle_failed_send (session_id : String) (st : Store) : Store :=
  match hget st.sessions session_id with
  | none => st
  | some session =>
    match session.messages.getLast? with
    | some m =>
      if m.role = "user" then
        let session2 := { session with messages := session.messages.dropLast }
        { st with sessions := hset st.sessions session_id session2 }
      else st
    | none => st

/-- Sequence of add_message_to_session operations applied in order to one session
id. -/
def appendAll (session_id : String) (ms : List Message) (st : Store) : Store :=
  ms.foldl (fun s m => add_message_to_session session_id m s) st

/-- Record with its trailing message removed, as written back by the rollback. -/
def popLast (s : Session) : Session := { s with messages := s.messages.dropLast }

/-- Store with no sessions and no current pointer. -/
def emptyStore : Store := { sessions := [], current := none }

/-- Store right after creating session s1 in the empty store. -/
def demoRun1 : Store :=
  (create_new_session "s1" "2024-01-01 10:00" "Today" emptyStore).2

/-- demoRun1 after the first user message "A" was appended to s1. -/
def demoRun2 : Store :=
  add_message_to_session "s1" { role := "user", content := "A" } demoRun1

/-- demoRun2 after the rollback of a failed send removed the user message. -/
def demoRun3 : Store := handle_failed_send "s1" demoRun2

/-- demoRun3 after a second, different user message "B" was appended to s1. -/
def demoRun4 : Store :=
  add_message_to_session "s1" { role := "user", content := "B" } demoRun3

/-- Record stored under s1 in demoRun1: the freshly created session. -/
def demoSession1 : Session :=
  { id := "s1", title := "New Session (Today)",
    messages := [{ role := "assistant", content := initialContent }],
    created_at := "2024-01-01 10:00", display_time := "Today" }

/-- Record stored under s1 in demoRun2: greeting plus one user message, retitled. -/
def demoSession2 : Session :=
  { id := "s1", title := "A...",
    messages := [{ role := "assistant", content := initialContent },
                 { role := "user", content := "A" }],
    created_at := "2024-01-01 10:00", display_time := "Today" }

/-- Helper: hget right after hset of the same field returns the value just set. -/
theorem hget_hset_self (l : List (String × Session)) (k : String) (v : Session) :
    hget (hset l k v) k = some v := by
  induction l with
  | nil => simp [hset, hget]
  | cons p rest ih =>
    obtain ⟨k1, v1⟩ := p
    by_cases h : k1 = k
    · simp [hset, hget, h]
    · simp [hset, hget, h, ih]

/-- Helper: appendAll on the empty message list does nothing. -/
theorem appendAll_nil (session_id : String) (st : Store) :
    appendAll session_id [] st = st := rfl

/-- Helper: appendAll on a cons first appends the head, then the tail. -/
theorem appendAll_cons (session_id : String) (m : Message) (ms : List Message) (st : Store) :
    appendAll session_id (m :: ms) st =
      appendAll session_id ms (add_message_to_session session_id m st) := rfl

/-- Helper: once a session holds at least two messages, any further sequence of
appends leaves its title unchanged (the retitle condition requires the list to
reach length exactly 2). -/
theorem appendAll_title_stable (ms : List Message) :
    ∀ (st : Store) (sid : String) (s : Session),
      hget st.sessions sid = some s → 2 ≤ s.messages.length →
      ∃ s2, hget (appendAll sid ms st).sessions sid = some s2 ∧
        s2.title = s.title ∧ 2 ≤ s2.messages.length := by
  induction ms with
  | nil =>
    intro st sid s h hl
    exact ⟨s, h, rfl, hl⟩
  | cons m rest ih =>
    intro st sid s h hl
    have hcond : ¬ (m.role = "user" ∧ s.messages.length = 1) := by
      rintro ⟨-, h2⟩
      omega
    have hstep : add_message_to_session sid m st =
        Store.mk (hset st.sessions sid ({ s with messages := s.messages ++ [m] })) st.current := by
      simp [add_message_to_session, h, hcond]
    have h2 : hget (add_message_to_session sid m st).sessions sid =
        some { s with messages := s.messages ++ [m] } := by
      rw [hstep]
      exact hget_hset_self _ _ _
    have hl2 : 2 ≤ ({ s with messages := s.messages ++ [m] } : Session).messages.length := by
      simp
      omega
    obtain ⟨s2, hs2, ht, hlen2⟩ := ih (add_message_to_session sid m st) sid _ h2 hl2
    rw [appendAll_cons]
    exact ⟨s2, hs2, ht, hlen2⟩

/-- C1: for every session id returned by create_new_session, reading the messages
of that id immediately after creation yields exactly one message, with role
assistant and the fixed greeting text initialContent. -/
theorem claim1_create_seeds_one_greeting (freshId timestamp display_time : String) (st : Store) :
    (create_new_session freshId timestamp display_time st).1 = freshId ∧
    get_session_messages (create_new_session freshId timestamp display_time st).1
        (create_new_session freshId timestamp display_time st).2 =
      [{ role := "assistant", content := initialContent }] := by
  constructor
  · rfl
  · simp [create_new_session, add_message_to_session, get_session_messages, hget_hset_self]

/-- C2 counterexample: starting from a freshly created session, the run
append(user "A"), handle_failed_send, append(user "B") makes the stored title pass
through three distinct values — "New Session (Today)", then "A...", then "B..." —
so the title changes twice, and the later (third) append does change it,
contradicting the claim that the title changes at most once over sequences of
appendMessage and handleFailedSend operations. -/
theorem claim2_counterexample :
    (hget demoRun1.sessions "s1").map Session.title = some "New Session (Today)" ∧
    (hget demoRun2.sessions "s1").map Session.title = some "A..." ∧
    (hget demoRun3.sessions "s1").map Session.title = some "A..." ∧
    (hget demoRun4.sessions "s1").map Session.title = some "B..." := by
  decide

/-- C2 amended: over sequences of add_message_to_session alone (no rollback), the
title of a freshly created session is determined by the first appended message:
it becomes the first 30 characters of that message plus "..." when its role is
user (the append that makes the count reach 2), and otherwise never changes; in
particular it changes at most once.  Interleaving the handle_failed_send rollback
can drop the count back below 2 and make the retitle fire again. -/
theorem claim2_amended_title_once_append_only (freshId timestamp display_time : String)
    (st : Store) (ms : List Message) :
    (hget (appendAll freshId ms (create_new_session freshId timestamp display_time st).2).sessions
        freshId).map Session.title =
      some (match ms with
        | [] => "New Session (" ++ display_time ++ ")"
        | m :: _ =>
          if m.role = "user" then pySlice30 m.content ++ "..."
          else "New Session (" ++ display_time ++ ")") := by
  have hg : hget (create_new_session freshId timestamp display_time st).2.sessions freshId =
      some (Session.mk freshId ("New Session (" ++ display_time ++ ")")
        [{ role := "assistant", content := initialContent }] timestamp display_time) := by
    simp [create_new_session, add_message_to_session, hget_hset_self]
  cases ms with
  | nil =>
    rw [appendAll_nil, hg]
    rfl
  | cons m rest =>
    rw [appendAll_cons]
    have hstep : hget (add_message_to_session freshId m
        (create_new_session freshId timestamp display_time st).2).sessions freshId =
      some (Session.mk freshId
        (if m.role = "user" then pySlice30 m.content ++ "..."
         else "New Session (" ++ display_time ++ ")")
        [{ role := "assistant", content := initialContent }, m] timestamp display_time) := by
      simp [add_message_to_session, hg, hget_hset_self]
    obtain ⟨s2, hs2, htitle, -⟩ :=
      appendAll_title_stable rest _ freshId _ hstep (by simp)
    rw [hs2]
    simp [htitle]

/-- C3 divergence witness: with the current pointer present and naming the existing
session s1, get_current_session does not return the pointer value — the call of
decode("utf-8") on the str pointer raises AttributeError (modelled none), so the
call fails instead of never failing. -/
theorem claim3_pointer_branch_raises :
    demoRun1.current = some "s1" ∧ (hget demoRun1.sessions "s1").isSome = true ∧
    get_current_session "s2" "2024-01-02 09:00" "Today" demoRun1 = none := by
  decide

/-- C5 divergence witness: on any store holding at least one session, listing
raises AttributeError while decoding the first str hash key (modelled none); only
the empty store yields a (trivially sorted) summary list. -/
theorem claim5_listing_raises :
    get_all_sessions demoRun1 = none ∧ get_all_sessions emptyStore = some [] := by
  decide

/-- C7 divergence witness: deleting s1 while the current pointer names s1 removes
the record, but then raises AttributeError (flag true) while decoding the str
pointer, before the pointer comparison: the pointer survives and now names a
session that no longer exists. -/
theorem claim7_delete_leaves_dangling_pointer :
    delete_session "s1" demoRun1 = (Store.mk [] (some "s1"), true) ∧
    hget (delete_session "s1" demoRun1).1.sessions "s1" = none ∧
    (delete_session "s1" demoRun1).1.current = some "s1" := by
  decide

set_option maxRecDepth 8192 in
/-- C9 divergence witness: on the empty store the first get_current_session call
creates and returns s1, leaving the pointer set; the immediately following call,
with no mutation in between, raises AttributeError (none) while decoding the str
pointer instead of returning s1 again. -/
theorem claim9_second_call_raises :
    get_current_session "s1" "2024-01-01 10:00" "Today" emptyStore =
      some ("s1", demoRun1) ∧
    get_current_session "s2" "2024-01-01 10:05" "Today" demoRun1 = none := by
  decide

/-- C4: for every stored session whose last message has role user, the rollback
removes exactly that trailing message and writes the record back (the count drops
by exactly one and every other field of the record and of the store is kept);
when the last message does not have role user (or there is none), the store is
left entirely unchanged. -/
theorem claim4_rollback_spec (st : Store) (sid : String) (s : Session)
    (h : hget st.sessions sid = some s) :
    ((∃ m, s.messages.getLast? = some m ∧ m.role = "user") →
      handle_failed_send sid st = Store.mk (hset st.sessions sid (popLast s)) st.current ∧
      (popLast s).messages.length + 1 = s.messages.length ∧
      (popLast s).messages = s.messages.dropLast) ∧
    ((∀ m, s.messages.getLast? = some m → m.role ≠ "user") →
      handle_failed_send sid st = st) := by
  constructor
  · rintro ⟨m, hm, hrole⟩
    have hne : s.messages ≠ [] := by
      intro he
      rw [he] at hm
      exact Option.noConfusion hm
    have hpos : 0 < s.messages.length := List.length_pos.mpr hne
    refine ⟨?_, ?_, rfl⟩
    · simp [handle_failed_send, h, hm, hrole, popLast]
    · simp only [popLast, List.length_dropLast]
      omega
  · intro hall
    simp only [handle_failed_send, h]
    cases hlast : s.messages.getLast? with
    | none => rfl
    | some m => simp [hall m hlast]

set_option maxRecDepth 8192 in
/-- C4 witness: the rollback applied to demoRun2, whose session s1 ends in the
user message "A", pops exactly that message. -/
theorem claim4_witness :
    handle_failed_send "s1" demoRun2 =
      Store.mk (hset demoRun2.sessions "s1" (popLast demoSession2)) demoRun2.current :=
  ((claim4_rollback_spec demoRun2 "s1" demoSession2 (by decide)).1
    ⟨{ role := "user", content := "A" }, by decide, rfl⟩).1

/-- C6: appending a message under a session id that is absent from the store is a
no-op; the model is a total function, so no exception is raised, and the whole
store state is returned unchanged. -/
theorem claim6_append_missing_noop (st : Store) (sid : String) (m : Message)
    (h : hget st.sessions sid = none) :
    add_message_to_session sid m st = st := by
  simp [add_message_to_session, h]

/-- C6 witness: appending to the id zzz, absent from demoRun1, changes nothing. -/
theorem claim6_witness :
    add_message_to_session "zzz" { role := "user", content := "hi" } demoRun1 = demoRun1 :=
  claim6_append_missing_noop demoRun1 "zzz" { role := "user", content := "hi" } (by decide)

/-- C8: the formatter depends only on the calendar dates of its two inputs (never
on hours or minutes); it returns Today when the timestamp date equals the current
date, Yesterday when it equals the immediately previous date, and otherwise the
full weekday name of the timestamp date. -/
theorem claim8_formatter_spec (timestamp now : PyDatetime) :
    format_chat_timestamp timestamp now =
      format_chat_timestamp (PyDatetime.mk timestamp.date 0 0) (PyDatetime.mk now.date 0 0) ∧
    (timestamp.date = now.date → format_chat_timestamp timestamp now = "Today") ∧
    (timestamp.date + 1 = now.date → format_chat_timestamp timestamp now = "Yesterday") ∧
    (timestamp.date ≠ now.date → timestamp.date + 1 ≠ now.date →
      format_chat_timestamp timestamp now = strftimeA timestamp.date) := by
  refine ⟨rfl, ?_, ?_, ?_⟩
  · intro h
    simp [format_chat_timestamp, h]
  · intro h
    have h1 : ¬ timestamp.date = now.date := by omega
    have h2 : timestamp.date = now.date - 1 := by omega
    simp only [format_chat_timestamp]
    rw [if_neg h1, if_pos h2]
  · intro h1 h2
    have h3 : ¬ timestamp.date = now.date - 1 := by omega
    simp only [format_chat_timestamp]
    rw [if_neg h1, if_neg h3]

/-- C8 witness: ordinal 737791 is the day after 737790 (a Thursday), so a session
created at 23:59 and viewed at 00:01 the next day already reads Yesterday. -/
theorem claim8_witness :
    format_chat_timestamp (PyDatetime.mk 737790 23 59) (PyDatetime.mk 737791 0 1) =
      "Yesterday" :=
  (claim8_formatter_spec (PyDatetime.mk 737790 23 59) (PyDatetime.mk 737791 0 1)).2.2.1
    (by decide)

/-- C10: appending the first user message to a session holding only the greeting
always sets the title to the first 30 characters of the content followed by the
literal suffix "...", and when the content has at most 30 characters nothing is
truncated, so the title is the entire content followed by "...". -/
theorem claim10_retitle_suffix (st : Store) (sid : String) (s : Session) (c : String)
    (h : hget st.sessions sid = some s) (hlen : s.messages.length = 1) :
    (hget (add_message_to_session sid { role := "user", content := c } st).sessions sid).map
        Session.title = some (pySlice30 c ++ "...") ∧
    (c.length ≤ 30 → pySlice30 c ++ "..." = c ++ "...") := by
  constructor
  · simp [add_message_to_session, h, hlen, hget_hset_self]
  · intro hle
    obtain ⟨data⟩ := c
    have ht : data.take 30 = data := by
      refine List.take_of_length_le ?_
      simpa [String.length] using hle
    simp [pySlice30, ht]

set_option maxRecDepth 8192 in
/-- C10 witness: the one-character first user message "A" yields the title "A...",
the whole content followed by the suffix even though nothing was truncated. -/
theorem claim10_witness :
    (hget (add_message_to_session "s1" { role := "user", content := "A" }
        demoRun1).sessions "s1").map Session.title = some (pySlice30 "A" ++ "...") ∧
    (("A" : String).length ≤ 30 → pySlice30 "A" ++ "..." = "A" ++ "...") :=
  claim10_retitle_suffix demoRun1 "s1" demoSession1 "A" (by decide) (by decide)
